import Mathlib

/-!
Verification development for the Pipeline-STT repository (`stt_processor`).

Shallow embedding conventions:
* Python `float` values (times, durations, confidences, sizes) are modelled as `ℚ`;
  Python `int` as `ℤ`/`ℕ`; Python `Optional[T]` as `Option T`; `datetime` instants as `ℚ`.
* Fallible code returns `Except`/`Option`, or carries an explicit "raised" flag when the
  Python code mutates state before raising.
* External collaborators (Whisper/WhisperX/pyannote inference, librosa decoding) are
  oracles: their outcomes are inputs of the embedded functions.
* Filesystem side effects (directory creation in `STTConfig.validate`, logging) are not
  modelled; only the value-level behaviour of the source is.
-/

namespace STT

/-! ## models.py -/

/-- Structure `SpeakerSegment` from `models.py`.  The word-level dictionaries carried by the
`words` field are never inspected by the core, so they are modelled opaquely as
strings. -/
structure SpeakerSegment where
  start_time : ℚ
  end_time : ℚ
  speaker_id : String
  text : String
  confidence : ℚ
  words : List String
deriving DecidableEq, Repr

/-- Property `SpeakerSegment.duration`: `end_time - start_time`. -/
def SpeakerSegment.duration (s : SpeakerSegment) : ℚ :=
  s.end_time - s.start_time

/-- The dictionary produced by `SpeakerSegment.to_dict`. -/
structure SegmentDict where
  start_time : ℚ
  end_time : ℚ
  speaker_id : String
  text : String
  confidence : ℚ
  duration : ℚ
  words : List String
deriving DecidableEq, Repr

/-- Method `SpeakerSegment.to_dict` from `models.py`. -/
def SpeakerSegment.toDict (s : SpeakerSegment) : SegmentDict :=
  { start_time := s.start_time
    end_time := s.end_time
    speaker_id := s.speaker_id
    text := s.text
    confidence := s.confidence
    duration := s.duration
    words := s.words }

/-- Structure `TranscriptionResult` from `models.py` (field for field; `created_at` is an
abstract time stamp). -/
structure TranscriptionResult where
  segments : List SpeakerSegment
  full_text : String
  speakers : List String
  audio_duration : ℚ
  processing_time : ℚ
  model_version : String
  language : String
  job_id : String
  created_at : ℚ
  overall_confidence : ℚ
  word_count : ℕ
  speaker_count : ℕ
deriving DecidableEq, Repr

/-- Tokenizer behind Python `str.split()`: walk the characters, accumulating the
current token (reversed); whitespace ends the token, and empty tokens are
dropped. -/
def splitWhitespaceAux : List Char → List Char → List String
  | [], acc => if acc.isEmpty then [] else [String.mk acc.reverse]
  | c :: cs, acc =>
      if c.isWhitespace then
        if acc.isEmpty then splitWhitespaceAux cs []
        else String.mk acc.reverse :: splitWhitespaceAux cs []
      else splitWhitespaceAux cs (c :: acc)

/-- Python `str.split()` with no argument: split on runs of whitespace and drop
empty tokens. -/
def pySplit (s : String) : List String :=
  splitWhitespaceAux s.toList []

/-- Total segment duration, the `sum(seg.duration for seg in self.segments)` of
`__post_init__`. -/
def totalDuration (segs : List SpeakerSegment) : ℚ :=
  (segs.map SpeakerSegment.duration).sum

/-- The `sum(seg.confidence * seg.duration for seg in self.segments)` of
`__post_init__`. -/
def weightedConf (segs : List SpeakerSegment) : ℚ :=
  (segs.map (fun s => s.confidence * s.duration)).sum

/-- Hook `TranscriptionResult.__post_init__` from `models.py`: when `segments` is truthy
(non-empty), recompute `overall_confidence` (only when the total duration is
positive), `word_count` and `speaker_count`; otherwise leave all fields as
constructed. -/
def TranscriptionResult.postInit (r : TranscriptionResult) : TranscriptionResult :=
  if r.segments.isEmpty then r
  else
    let td := totalDuration r.segments
    let r1 := if 0 < td then { r with overall_confidence := weightedConf r.segments / td } else r
    { r1 with word_count := (pySplit r.full_text).length, speaker_count := r.speakers.length }

/-- Constructing a `TranscriptionResult` the way the dataclass does it: the three
quality metrics start at their defaults (`0.0`, `0`, `0`) and `__post_init__` runs. -/
def TranscriptionResult.create (segments : List SpeakerSegment) (full_text : String)
    (speakers : List String) (audio_duration processing_time : ℚ)
    (model_version language job_id : String) (created_at : ℚ) : TranscriptionResult :=
  TranscriptionResult.postInit
    { segments := segments
      full_text := full_text
      speakers := speakers
      audio_duration := audio_duration
      processing_time := processing_time
      model_version := model_version
      language := language
      job_id := job_id
      created_at := created_at
      overall_confidence := 0
      word_count := 0
      speaker_count := 0 }

/-- Method `TranscriptionResult.get_speaker_segments` from `models.py`. -/
def TranscriptionResult.get_speaker_segments (r : TranscriptionResult) (speaker_id : String) :
    List SpeakerSegment :=
  r.segments.filter (fun seg => seg.speaker_id == speaker_id)

/-- Method `TranscriptionResult.get_transcript_by_speaker` from `models.py`: an
insertion-ordered dictionary, modelled as an association list over `speakers`. -/
def TranscriptionResult.get_transcript_by_speaker (r : TranscriptionResult) :
    List (String × String) :=
  r.speakers.map (fun sp =>
    (sp, String.intercalate " " ((r.get_speaker_segments sp).map SpeakerSegment.text)))

/-- The dictionary produced by `TranscriptionResult.to_dict`. -/
structure ResultDict where
  job_id : String
  created_at : ℚ
  audio_duration : ℚ
  processing_time : ℚ
  model_version : String
  language : String
  overall_confidence : ℚ
  word_count : ℕ
  speaker_count : ℕ
  speakers : List String
  full_text : String
  segments : List SegmentDict
  transcript_by_speaker : List (String × String)
deriving DecidableEq, Repr

/-- Method `TranscriptionResult.to_dict` from `models.py`. -/
def TranscriptionResult.toDict (r : TranscriptionResult) : ResultDict :=
  { job_id := r.job_id
    created_at := r.created_at
    audio_duration := r.audio_duration
    processing_time := r.processing_time
    model_version := r.model_version
    language := r.language
    overall_confidence := r.overall_confidence
    word_count := r.word_count
    speaker_count := r.speaker_count
    speakers := r.speakers
    full_text := r.full_text
    segments := r.segments.map SpeakerSegment.toDict
    transcript_by_speaker := r.get_transcript_by_speaker }

/-- The spec's wording of the per-speaker transcript view: each speaker identifier is
mapped to the space-joined concatenation of that speaker's segment texts, in the
chronological (list) order of `segments`. -/
def transcriptViewSpec (r : TranscriptionResult) : List (String × String) :=
  r.speakers.map (fun sp =>
    (sp, String.intercalate " "
      ((r.segments.filter (fun seg => seg.speaker_id == sp)).map SpeakerSegment.text)))

/-- Structure `ProcessingJob` from `models.py`. -/
structure ProcessingJob where
  job_id : String
  file_path : String
  status : String
  created_at : ℚ
  started_at : Option ℚ
  completed_at : Option ℚ
  error_message : Option String
  result : Option TranscriptionResult
deriving DecidableEq, Repr

/-- Method `ProcessingJob.mark_started`; `now` stands for `datetime.utcnow()`. -/
def ProcessingJob.mark_started (j : ProcessingJob) (now : ℚ) : ProcessingJob :=
  { j with status := "processing", started_at := some now }

/-- Method `ProcessingJob.mark_completed`. -/
def ProcessingJob.mark_completed (j : ProcessingJob) (now : ℚ)
    (result : TranscriptionResult) : ProcessingJob :=
  { j with status := "completed", completed_at := some now, result := some result }

/-- Method `ProcessingJob.mark_failed`. -/
def ProcessingJob.mark_failed (j : ProcessingJob) (now : ℚ) (error : String) : ProcessingJob :=
  { j with status := "failed", completed_at := some now, error_message := some error }

/-! ## config.py -/

/-- Structure `STTConfig` from `config.py` (field for field). -/
structure STTConfig where
  whisper_model : String
  whisper_device : String
  compute_type : String
  vad_onset : ℚ
  vad_offset : ℚ
  chunk_length : ℤ
  min_speakers : Option ℤ
  max_speakers : Option ℤ
  num_speakers : Option ℤ
  batch_size : ℤ
  num_workers : ℤ
  use_gpu : Bool
  gpu_memory_limit : Option ℚ
  language : String
  task : String
  supported_formats : List String
  max_file_size_mb : ℤ
  temp_dir : String
  log_level : String
  structured_logging : Bool
deriving DecidableEq, Repr

/-- The dataclass defaults of `STTConfig`. -/
def defaultConfig : STTConfig :=
  { whisper_model := "large-v3"
    whisper_device := "auto"
    compute_type := "float16"
    vad_onset := 1/2
    vad_offset := 363/1000
    chunk_length := 30
    min_speakers := none
    max_speakers := none
    num_speakers := none
    batch_size := 16
    num_workers := 0
    use_gpu := true
    gpu_memory_limit := none
    language := "pt"
    task := "transcribe"
    supported_formats := [".mp3", ".wav", ".m4a", ".flac", ".ogg", ".mp4", ".avi", ".mov"]
    max_file_size_mb := 500
    temp_dir := "/tmp/stt_processing"
    log_level := "INFO"
    structured_logging := true }

/-- The enumerated model identifiers accepted by `STTConfig.validate`. -/
def validModels : List String :=
  ["tiny", "base", "small", "medium", "large", "large-v2", "large-v3"]

/-- The enumerated precision modes accepted by `STTConfig.validate`. -/
def validComputeTypes : List String :=
  ["float16", "int8", "float32"]

/-- The enumerated languages accepted by `STTConfig.validate`. -/
def validLanguages : List String :=
  ["pt", "en", "es", "auto"]

/-- The enumerated tasks accepted by `STTConfig.validate`. -/
def validTasks : List String :=
  ["transcribe", "translate"]

/-- Python truthiness of an `Optional[int]`: `None` and `0` are falsy. -/
def optIntTruthy : Option ℤ → Bool
  | none => false
  | some n => n != 0

/-- Method `STTConfig.validate` from `config.py`.  The speaker-bound check is guarded by
Python truthiness of `min_speakers` and `max_speakers`, exactly as in the source
(`if self.min_speakers and self.max_speakers`).  The trailing creation of the
temporary directory is a filesystem side effect and is not modelled. -/
def STTConfig.validate (c : STTConfig) : Except String Unit :=
  if c.whisper_model ∉ validModels then
    Except.error ("Invalid whisper_model: " ++ c.whisper_model)
  else if c.compute_type ∉ validComputeTypes then
    Except.error ("Invalid compute_type: " ++ c.compute_type)
  else if c.language ∉ validLanguages then
    Except.error ("Invalid language: " ++ c.language)
  else if c.task ∉ validTasks then
    Except.error ("Invalid task: " ++ c.task)
  else if optIntTruthy c.min_speakers && optIntTruthy c.max_speakers then
    if c.min_speakers.getD 0 > c.max_speakers.getD 0 then
      Except.error "min_speakers cannot be greater than max_speakers"
    else
      Except.ok ()
  else
    Except.ok ()

/-! ## main.py — statistics tracking (`STTProcessor.process_file`, lines 393-413)

`processing_stats` is a mutable dictionary updated in place on the success path.
A Python float division raises `ZeroDivisionError` when the divisor is `0.0`; since
the dictionary entries are mutated one by one before the division, a division
failure leaves the already-performed increments in place.  `statsUpdate` returns
the observable dictionary state together with a flag telling whether the success
path ran to completion (`false` = it raised). -/

/-- The `processing_stats` dictionary of `STTProcessor`. -/
structure ProcessingStats where
  jobs_processed : ℕ
  total_audio_duration : ℚ
  total_processing_time : ℚ
  average_rtf : ℚ
deriving DecidableEq, Repr

/-- The stats dictionary as initialized in `STTProcessor.__init__`. -/
def initStats : ProcessingStats :=
  { jobs_processed := 0
    total_audio_duration := 0
    total_processing_time := 0
    average_rtf := 0 }

/-- The statistics update on the success path of `process_file` (lines 394-400),
followed by the per-job `rtf` computation in the success log call (line 408).
The increments always happen; the `average_rtf` recomputation raises
`ZeroDivisionError` (flag `false`, field unchanged) when the accumulated
`total_audio_duration` is zero; afterwards the log-line division
`total_processing_time / audio_duration` raises when this job's duration `d`
is zero. -/
def statsUpdate (s : ProcessingStats) (d t : ℚ) : ProcessingStats × Bool :=
  let s1 : ProcessingStats :=
    { s with
      jobs_processed := s.jobs_processed + 1
      total_audio_duration := s.total_audio_duration + d
      total_processing_time := s.total_processing_time + t }
  if s1.total_audio_duration = 0 then (s1, false)
  else
    ({ s1 with average_rtf := s1.total_processing_time / s1.total_audio_duration },
     d != 0)

/-- Outcome of one `process_file` call as seen by the statistics tracker: either the
pipeline reached the success path with audio duration `d` and wall-clock time `t`,
or some stage raised beforehand. -/
inductive JobOutcome where
  | success (d t : ℚ)
  | failure
deriving DecidableEq, Repr

/-- Effect of one `process_file` call on `processing_stats` (second component:
`true` when the call returned normally). A call that raises before the statistics
block leaves the dictionary untouched. -/
def processFileStats (s : ProcessingStats) : JobOutcome → ProcessingStats × Bool
  | JobOutcome.success d t => statsUpdate s d t
  | JobOutcome.failure => (s, false)

/-- Folding the statistics update over a sequence of jobs that all reach the
success path, each given as `(audio duration, processing time)`. -/
def runSuccessJobs (s : ProcessingStats) : List (ℚ × ℚ) → ProcessingStats
  | [] => s
  | (d, t) :: rest => runSuccessJobs (statsUpdate s d t).1 rest

/-! ## main.py — control flow of `process_file` (model loading, input checks, stages)

The lazily-loaded model handles of `STTProcessor` are modelled as `Option Unit`
fields; the external library calls (model loads, decoding, transcription,
alignment, diarization) are oracles whose outcome — return normally or raise a
Python exception — is an input (`PipelineEnv`).  `processFile` records the order of
the heavyweight operations it performs as an event trace. -/

/-- A raised Python exception: its type name and its message. -/
structure PyErr where
  ety : String
  msg : String
deriving DecidableEq, Repr

/-- Outcome of one external library call. -/
inductive StageOutcome where
  | ok
  | fail (e : PyErr)
deriving DecidableEq, Repr

/-- Heavyweight operations performed during `process_file`, in execution order. -/
inductive Event where
  | loadWhisper
  | loadWhisperX
  | decodeAudio
  | transcribe
  | align
  | diarize
deriving DecidableEq, Repr

/-- The four lazily-loaded model handles of `STTProcessor`. -/
structure ModelState where
  whisper_model : Option Unit
  whisperx_model : Option Unit
  align_model : Option Unit
  diarize_model : Option Unit
deriving DecidableEq, Repr

/-- Model handles of a freshly constructed processor: all `None`. -/
def initModels : ModelState :=
  { whisper_model := none, whisperx_model := none, align_model := none, diarize_model := none }

/-- The input file as `_preprocess_audio` inspects it: its path string, its
extension (`Path.suffix`), whether it exists, and its size in megabytes. -/
structure AudioFile where
  path : String
  suffix : String
  exists_on_disk : Bool
  size_mb : ℚ
deriving DecidableEq, Repr

/-- Oracle outcomes for the external library calls made during one
`process_file` call. -/
structure PipelineEnv where
  load_whisper : StageOutcome
  load_whisperx : StageOutcome
  decode : StageOutcome
  transcribe : StageOutcome
  align : StageOutcome
  diarize : StageOutcome
deriving DecidableEq, Repr

/-- The single error surfaced by `process_file`: always a `RuntimeError`, with the
original exception attached as its cause (`raise ... from e`). -/
structure SurfacedErr where
  ety : String
  msg : String
  cause : PyErr
deriving DecidableEq, Repr

/-- The `except` block of `process_file` (lines 417-427):
`raise RuntimeError(f"STT processing failed: \x7bstr(e)\x7d") from e`. -/
def wrapErr (e : PyErr) : SurfacedErr :=
  { ety := "RuntimeError", msg := "STT processing failed: " ++ e.msg, cause := e }

/-- Everything `process_file` returns to the embedding: the model handles after the
call, the trace of heavyweight operations, and either success or the surfaced
error. -/
structure PipeResult where
  models : ModelState
  trace : List Event
  outcome : Except SurfacedErr Unit
deriving Repr

/-- Method `STTProcessor._load_whisper_model`: loads only while the handle is `None`; a
load failure leaves the handle unset. -/
def loadWhisperModel (st : ModelState) (env : PipelineEnv) :
    ModelState × List Event × Option PyErr :=
  if st.whisper_model.isNone then
    match env.load_whisper with
    | StageOutcome.ok => ({ st with whisper_model := some () }, [Event.loadWhisper], none)
    | StageOutcome.fail e => (st, [Event.loadWhisper], some e)
  else (st, [], none)

/-- Method `STTProcessor._load_whisperx_models`: guarded by `whisperx_model is None`; on
success sets the WhisperX, alignment and diarization handles. -/
def loadWhisperXModels (st : ModelState) (env : PipelineEnv) :
    ModelState × List Event × Option PyErr :=
  if st.whisperx_model.isNone then
    match env.load_whisperx with
    | StageOutcome.ok =>
        ({ st with whisperx_model := some (), align_model := some (), diarize_model := some () },
         [Event.loadWhisperX], none)
    | StageOutcome.fail e => (st, [Event.loadWhisperX], some e)
  else (st, [], none)

/-- Python `str.lower()`, character by character. -/
def lowerString (s : String) : String :=
  String.mk (s.toList.map Char.toLower)

/-- Method `STTProcessor._preprocess_audio` (lines 190-231): existence, extension and size
checks happen before any decode; only then is the file decoded (an external call
that may itself raise).  The oversize message interpolates float formatting and is
abbreviated here. -/
def preprocessAudio (cfg : STTConfig) (f : AudioFile) (env : PipelineEnv) :
    List Event × Option PyErr :=
  if ¬ f.exists_on_disk then
    ([], some { ety := "FileNotFoundError", msg := "Audio file not found: " ++ f.path })
  else if lowerString f.suffix ∉ cfg.supported_formats then
    ([], some { ety := "ValueError", msg := "Unsupported audio format: " ++ f.suffix })
  else if f.size_mb > (cfg.max_file_size_mb : ℚ) then
    ([], some { ety := "ValueError", msg := "File too large" })
  else
    match env.decode with
    | StageOutcome.ok => ([Event.decodeAudio], none)
    | StageOutcome.fail e => ([Event.decodeAudio], some e)

/-- The three inference stages of `process_file`, in strict sequence; the first
failure aborts the pipeline. -/
def runStages (env : PipelineEnv) : List Event × Option PyErr :=
  match env.transcribe with
  | StageOutcome.fail e => ([Event.transcribe], some e)
  | StageOutcome.ok =>
    match env.align with
    | StageOutcome.fail e => ([Event.transcribe, Event.align], some e)
    | StageOutcome.ok =>
      match env.diarize with
      | StageOutcome.fail e => ([Event.transcribe, Event.align, Event.diarize], some e)
      | StageOutcome.ok => ([Event.transcribe, Event.align, Event.diarize], none)

/-- Method `STTProcessor.process_file` (lines 357-427), control-flow view: load the
Whisper model, load the WhisperX models, preprocess the audio (checks, then
decode), run the three stages; any raised exception is wrapped by the `except`
block into a single `RuntimeError`. -/
def processFile (st : ModelState) (cfg : STTConfig) (f : AudioFile) (env : PipelineEnv) :
    PipeResult :=
  let (st1, ev1, e1) := loadWhisperModel st env
  match e1 with
  | some e => { models := st1, trace := ev1, outcome := Except.error (wrapErr e) }
  | none =>
    let (st2, ev2, e2) := loadWhisperXModels st1 env
    match e2 with
    | some e => { models := st2, trace := ev1 ++ ev2, outcome := Except.error (wrapErr e) }
    | none =>
      let (ev3, e3) := preprocessAudio cfg f env
      match e3 with
      | some e => { models := st2, trace := ev1 ++ ev2 ++ ev3, outcome := Except.error (wrapErr e) }
      | none =>
        let (ev4, e4) := runStages env
        match e4 with
        | some e =>
            { models := st2, trace := ev1 ++ ev2 ++ ev3 ++ ev4,
              outcome := Except.error (wrapErr e) }
        | none =>
            { models := st2, trace := ev1 ++ ev2 ++ ev3 ++ ev4, outcome := Except.ok () }

/-! ## main.py — `_parse_results` (lines 320-355)

The speaker collection is a Python `set`; `list(speakers)` enumerates it in an
order the source does not determine (string hashing is randomized per process), so
the speakers list of the produced result is modelled relationally: it is some
permutation of the distinct identifiers encountered. -/

/-- One entry of `diarized_result["segments"]` as `_parse_results` reads it:
`speaker` and `avg_logprob` are looked up with defaults, `start`, `end` and `text`
are indexed directly. -/
structure RawSegment where
  speaker : Option String
  start : ℚ
  stop : ℚ
  text : String
  avg_logprob : Option ℚ
  words : List String
deriving DecidableEq, Repr

/-- Lookup `segment_data.get("speaker", "SPEAKER_UNKNOWN")`. -/
def rawSpeakerId (r : RawSegment) : String :=
  r.speaker.getD "SPEAKER_UNKNOWN"

/-- The `SpeakerSegment` built from one raw segment (text stripped, confidence
defaulted to `0.0`). -/
def parseSegment (r : RawSegment) : SpeakerSegment :=
  { start_time := r.start
    end_time := r.stop
    speaker_id := rawSpeakerId r
    text := r.text.trim
    confidence := r.avg_logprob.getD 0
    words := r.words }

/-- The full-text contribution of one raw segment: `"[speaker]: text"`. -/
def fullTextPart (r : RawSegment) : String :=
  "[" ++ rawSpeakerId r ++ "]: " ++ r.text.trim

/-- Field `full_text`: contributions joined with single spaces. -/
def parseFullText (rs : List RawSegment) : String :=
  String.intercalate " " (rs.map fullTextPart)

/-- The distinct speaker identifiers of a list, keeping the first appearance of
each. -/
def dedupFirst : List String → List String
  | [] => []
  | a :: l => a :: (dedupFirst l).filter (fun b => b != a)

/-- Relational embedding of `STTProcessor._parse_results`: `out` is a possible
return value for raw segments `rs` exactly when its speakers list is some
permutation of the distinct identifiers encountered (the unordered `list(set)`)
and everything else is built deterministically as in the source.  `job_id` and
`created_at` stand for the generated UUID and timestamp. -/
def parseResultsRel (rs : List RawSegment) (audio_duration processing_time : ℚ)
    (whisper_model language job_id : String) (created_at : ℚ)
    (out : TranscriptionResult) : Prop :=
  ∃ sp : List String, sp.Perm (dedupFirst (rs.map rawSpeakerId)) ∧
    out = TranscriptionResult.create (rs.map parseSegment) (parseFullText rs) sp
        audio_duration processing_time ("whisper-" ++ whisper_model ++ "+whisperx")
        language job_id created_at

/-! ## Auxiliary definitions used to state the claims -/

/-- Whether a character list starts with another character list. -/
def startsWithChars : List Char → List Char → Bool
  | _, [] => true
  | [], _ :: _ => false
  | a :: hay, b :: nee => (a == b) && startsWithChars hay nee

/-- Whether a character list contains another character list as a contiguous run. -/
def containsChars : List Char → List Char → Bool
  | [], nee => nee.isEmpty
  | a :: rest, nee => startsWithChars (a :: rest) nee || containsChars rest nee

/-- Substring test on strings, used to state what information an error carries. -/
def strContains (hay needle : String) : Bool :=
  containsChars hay.toList needle.toList

/-- All the text carried by a surfaced error: its own type and message and its
cause's type and message. -/
def surfacedContent (s : SurfacedErr) : String :=
  s.ety ++ " " ++ s.msg ++ " " ++ s.cause.ety ++ " " ++ s.cause.msg

/-! ## Concrete fixtures -/

/-- A sample segment: two seconds of speech with confidence `0.9`. -/
def segWitness : SpeakerSegment :=
  { start_time := 0, end_time := 2, speaker_id := "A", text := "ola doutor",
    confidence := 9/10, words := [] }

/-- A configuration whose speaker bounds are both set with `min > max`, the max
bound being `0`. -/
def cfgZeroMax : STTConfig :=
  { defaultConfig with min_speakers := some 1, max_speakers := some 0 }

/-- An existing, small file with an unsupported extension. -/
def fileBadExt : AudioFile :=
  { path := "/audio/consulta.xyz", suffix := ".xyz", exists_on_disk := true, size_mb := 1 }

/-- An existing, small, supported audio file. -/
def fileGood : AudioFile :=
  { path := "/audio/consulta.mp3", suffix := ".mp3", exists_on_disk := true, size_mb := 1 }

/-- An environment where every external call succeeds. -/
def envAllOk : PipelineEnv :=
  { load_whisper := StageOutcome.ok, load_whisperx := StageOutcome.ok,
    decode := StageOutcome.ok, transcribe := StageOutcome.ok,
    align := StageOutcome.ok, diarize := StageOutcome.ok }

/-- The exception raised by the failing transcription stage in the `C6` scenario. -/
def errBoom : PyErr := { ety := "ValueError", msg := "boom" }

/-- An environment where the transcription stage raises and everything else
succeeds. -/
def envTranscribeFails : PipelineEnv :=
  { envAllOk with transcribe := StageOutcome.fail errBoom }

/-- Two diarized segments: `SPEAKER_00` speaks first, then `SPEAKER_01`. -/
def rsEx : List RawSegment :=
  [ { speaker := some "SPEAKER_00", start := 0, stop := 1, text := "ola",
      avg_logprob := some (9/10), words := [] },
    { speaker := some "SPEAKER_01", start := 1, stop := 2, text := "oi",
      avg_logprob := some (4/5), words := [] } ]

/-- A possible `_parse_results` output for `rsEx` whose speakers list is the
permutation listing `SPEAKER_01` first, against the order of first appearance. -/
def outSwapped : TranscriptionResult :=
  TranscriptionResult.create (rsEx.map parseSegment) (parseFullText rsEx)
    ["SPEAKER_01", "SPEAKER_00"] 2 1 ("whisper-" ++ "large-v3" ++ "+whisperx")
    "pt" "job-1" 0

/-! ## Helper lemmas -/

/-- Function `create` never touches the `speakers` field: it is exactly the argument. -/
theorem create_speakers_eq (segs : List SpeakerSegment) (ft : String) (sp : List String)
    (a p : ℚ) (mv lang jid : String) (ca : ℚ) :
    (TranscriptionResult.create segs ft sp a p mv lang jid ca).speakers = sp := by
  unfold TranscriptionResult.create TranscriptionResult.postInit
  dsimp only
  split
  · rfl
  · split <;> rfl

/-- Membership in `dedupFirst` is membership in the original list. -/
theorem mem_dedupFirst (x : String) (l : List String) : x ∈ dedupFirst l ↔ x ∈ l := by
  induction l with
  | nil => simp [dedupFirst]
  | cons a l ih =>
      by_cases hx : x = a
      · subst hx; simp [dedupFirst]
      · simp [dedupFirst, List.mem_filter, ih, hx]

/-- Function `dedupFirst` produces a list with no duplicates. -/
theorem nodup_dedupFirst (l : List String) : (dedupFirst l).Nodup := by
  induction l with
  | nil => simp [dedupFirst]
  | cons a l ih =>
      rw [dedupFirst, List.nodup_cons]
      refine ⟨fun hmem => ?_, ih.filter _⟩
      have := List.of_mem_filter hmem
      simp at this

/-! ## Claims -/

/-- C10: `mark_started` modifies only `status` and `started_at`; `mark_completed`
modifies only `status`, `completed_at` and `result`; `mark_failed` modifies only
`status`, `completed_at` and `error_message`.  In particular `mark_failed` keeps a
previously attached result, `mark_completed` keeps a previously attached error
message, and `job_id`, `file_path`, `created_at` are never modified. -/
theorem C10_job_transition_frame (j : ProcessingJob) (now : ℚ)
    (res : TranscriptionResult) (err : String) :
    ((j.mark_started now).job_id = j.job_id ∧
     (j.mark_started now).file_path = j.file_path ∧
     (j.mark_started now).created_at = j.created_at ∧
     (j.mark_started now).completed_at = j.completed_at ∧
     (j.mark_started now).error_message = j.error_message ∧
     (j.mark_started now).result = j.result ∧
     (j.mark_started now).status = "processing" ∧
     (j.mark_started now).started_at = some now) ∧
    ((j.mark_completed now res).job_id = j.job_id ∧
     (j.mark_completed now res).file_path = j.file_path ∧
     (j.mark_completed now res).created_at = j.created_at ∧
     (j.mark_completed now res).started_at = j.started_at ∧
     (j.mark_completed now res).error_message = j.error_message ∧
     (j.mark_completed now res).status = "completed" ∧
     (j.mark_completed now res).completed_at = some now ∧
     (j.mark_completed now res).result = some res) ∧
    ((j.mark_failed now err).job_id = j.job_id ∧
     (j.mark_failed now err).file_path = j.file_path ∧
     (j.mark_failed now err).created_at = j.created_at ∧
     (j.mark_failed now err).started_at = j.started_at ∧
     (j.mark_failed now err).result = j.result ∧
     (j.mark_failed now err).status = "failed" ∧
     (j.mark_failed now err).completed_at = some now ∧
     (j.mark_failed now err).error_message = some err) :=
  ⟨⟨rfl, rfl, rfl, rfl, rfl, rfl, rfl, rfl⟩,
   ⟨rfl, rfl, rfl, rfl, rfl, rfl, rfl, rfl⟩,
   ⟨rfl, rfl, rfl, rfl, rfl, rfl, rfl, rfl⟩⟩

/-- C9: `to_dict` is lossless for the scalar and list fields — the record carries
`audio_duration`, `processing_time`, `overall_confidence`, `word_count`,
`speaker_count`, the `speakers` list and the segment list with values identical to
the object's fields (each segment dictionary reproducing every segment field) —
and its per-speaker transcript view maps each speaker identifier to the
space-joined concatenation of that speaker's segment texts in chronological
(segment-list) order. -/
theorem C9_to_dict_lossless (r : TranscriptionResult) :
    (r.toDict).audio_duration = r.audio_duration ∧
    (r.toDict).processing_time = r.processing_time ∧
    (r.toDict).overall_confidence = r.overall_confidence ∧
    (r.toDict).word_count = r.word_count ∧
    (r.toDict).speaker_count = r.speaker_count ∧
    (r.toDict).speakers = r.speakers ∧
    (r.toDict).full_text = r.full_text ∧
    (r.toDict).segments = r.segments.map SpeakerSegment.toDict ∧
    (∀ s : SpeakerSegment,
      (s.toDict).start_time = s.start_time ∧ (s.toDict).end_time = s.end_time ∧
      (s.toDict).speaker_id = s.speaker_id ∧ (s.toDict).text = s.text ∧
      (s.toDict).confidence = s.confidence ∧ (s.toDict).words = s.words) ∧
    (r.toDict).transcript_by_speaker = transcriptViewSpec r :=
  ⟨rfl, rfl, rfl, rfl, rfl, rfl, rfl, rfl,
   fun _ => ⟨rfl, rfl, rfl, rfl, rfl, rfl⟩, rfl⟩

/-- C1: for a `TranscriptionResult` constructed from a segment list (derived fields
at their defaults), `overall_confidence` is the duration-weighted average of the
segment confidences whenever the total duration is positive, and is `0` when the
segment list is empty or the total duration is zero. -/
theorem C1_weighted_confidence (segs : List SpeakerSegment) (ft : String) (sp : List String)
    (a p : ℚ) (mv lang jid : String) (ca : ℚ) :
    (0 < totalDuration segs →
      (TranscriptionResult.create segs ft sp a p mv lang jid ca).overall_confidence =
        weightedConf segs / totalDuration segs) ∧
    (segs = [] ∨ totalDuration segs = 0 →
      (TranscriptionResult.create segs ft sp a p mv lang jid ca).overall_confidence = 0) := by
  unfold TranscriptionResult.create TranscriptionResult.postInit
  cases segs with
  | nil =>
      constructor
      · intro h
        simp [totalDuration] at h
      · intro _
        rfl
  | cons s rest =>
      by_cases h : 0 < totalDuration (s :: rest)
      · constructor
        · intro _
          simp [h]
        · rintro (h0 | h0)
          · exact absurd h0 (List.cons_ne_nil s rest)
          · rw [h0] at h
            exact absurd h (lt_irrefl 0)
      · constructor
        · intro h'
          exact absurd h' h
        · intro _
          simp [h]

/-- Witness for C1 at a concrete two-second segment of confidence `0.9`. -/
theorem C1_weighted_confidence_witness :
    (0:ℚ) < totalDuration [segWitness] ∧
    (TranscriptionResult.create [segWitness] "ola doutor" ["A"] 2 1 "m" "pt" "j"
        0).overall_confidence = weightedConf [segWitness] / totalDuration [segWitness] :=
  ⟨by norm_num [totalDuration, segWitness, SpeakerSegment.duration],
   (C1_weighted_confidence [segWitness] "ola doutor" ["A"] 2 1 "m" "pt" "j" 0).1
     (by norm_num [totalDuration, segWitness, SpeakerSegment.duration])⟩

/-- Counterexample to C5 as stated: constructed with an empty segment list but
non-empty `full_text` and a duplicated speaker list, the result keeps
`word_count = 0` (not the token count `2`) and `speaker_count = 0` (not the
distinct count `1`), because `__post_init__` computes the counts only when
`segments` is non-empty. -/
theorem C5_counterexample :
    ¬ ((TranscriptionResult.create [] "a b" ["s", "s"] 1 1 "m" "pt" "j" 0).word_count =
         (pySplit "a b").length ∧
       (TranscriptionResult.create [] "a b" ["s", "s"] 1 1 "m" "pt" "j" 0).speaker_count =
         (dedupFirst ["s", "s"]).length) := by
  intro h
  have h1 : (TranscriptionResult.create [] "a b" ["s", "s"] 1 1 "m" "pt" "j" 0).word_count = 0 :=
    rfl
  have h2 : (pySplit "a b").length = 2 := by decide
  rw [h1, h2] at h
  exact absurd h.1 (by decide)

/-- C5 amended: when `segments` is non-empty, `word_count` is the whitespace-token
count of `full_text` and `speaker_count` is the length of the `speakers` list
(duplicates counted); when `segments` is empty both counts keep their constructed
default `0`, whatever `full_text` and `speakers` are. -/
theorem C5_counts_amended (segs : List SpeakerSegment) (ft : String) (sp : List String)
    (a p : ℚ) (mv lang jid : String) (ca : ℚ) :
    (segs ≠ [] →
      (TranscriptionResult.create segs ft sp a p mv lang jid ca).word_count =
        (pySplit ft).length ∧
      (TranscriptionResult.create segs ft sp a p mv lang jid ca).speaker_count = sp.length) ∧
    (segs = [] →
      (TranscriptionResult.create segs ft sp a p mv lang jid ca).word_count = 0 ∧
      (TranscriptionResult.create segs ft sp a p mv lang jid ca).speaker_count = 0) := by
  unfold TranscriptionResult.create TranscriptionResult.postInit
  cases segs with
  | nil =>
      exact ⟨fun h => absurd rfl h, fun _ => ⟨rfl, rfl⟩⟩
  | cons s rest =>
      constructor
      · intro _
        by_cases h : 0 < totalDuration (s :: rest) <;> simp [h]
      · intro h
        exact absurd h (List.cons_ne_nil s rest)

/-- Witness for C5 amended: a one-segment result whose text has three tokens and
whose speaker list has a duplicate. -/
theorem C5_counts_amended_witness :
    (TranscriptionResult.create [segWitness] "a b c" ["s", "s"] 2 1 "m" "pt" "j"
        0).word_count = (pySplit "a b c").length ∧
    (TranscriptionResult.create [segWitness] "a b c" ["s", "s"] 2 1 "m" "pt" "j"
        0).speaker_count = (["s", "s"] : List String).length :=
  (C5_counts_amended [segWitness] "a b c" ["s", "s"] 2 1 "m" "pt" "j" 0).1
    (List.cons_ne_nil segWitness [])

/-- Counterexample to C3 as stated: with both speaker bounds set (non-`None`) and
`min_speakers = 1 > 0 = max_speakers`, `validate` succeeds instead of raising,
because the source guards the comparison with Python truthiness and `0` is falsy. -/
theorem C3_counterexample :
    cfgZeroMax.min_speakers = some 1 ∧ cfgZeroMax.max_speakers = some 0 ∧
    STTConfig.validate cfgZeroMax = Except.ok () :=
  ⟨rfl, rfl, rfl⟩

/-- C3 amended: `validate` succeeds exactly when the model identifier, precision
mode, language and task are in their enumerated sets and, whenever both speaker
bounds are truthy (set and non-zero), min ≤ max.  A bound equal to `0` disables
the comparison, so configurations with `min > max = 0` (or `min = 0`) are
accepted. -/
theorem C3_validate_amended (c : STTConfig) :
    STTConfig.validate c = Except.ok () ↔
    (c.whisper_model ∈ validModels ∧ c.compute_type ∈ validComputeTypes ∧
     c.language ∈ validLanguages ∧ c.task ∈ validTasks ∧
     ((optIntTruthy c.min_speakers && optIntTruthy c.max_speakers) = true →
        c.min_speakers.getD 0 ≤ c.max_speakers.getD 0)) := by
  unfold STTConfig.validate
  split_ifs with h1 h2 h3 h4 h5 h6 <;> simp_all

/-- Witness for C3 amended: the default configuration validates. -/
theorem C3_validate_amended_witness :
    STTConfig.validate defaultConfig = Except.ok () :=
  (C3_validate_amended defaultConfig).mpr (by decide)

/-- Counterexample to C2 as stated: a job that reaches the success path with audio
duration `0` raises in the statistics block (the `average_rtf` division by the
zero accumulated audio duration), so the call fails — yet it has already
incremented `jobs_processed` and `total_processing_time`, which the claim says a
raising call leaves unchanged. -/
theorem C2_counterexample :
    (processFileStats initStats (JobOutcome.success 0 1)).2 = false ∧
    initStats.jobs_processed = 0 ∧
    (processFileStats initStats (JobOutcome.success 0 1)).1.jobs_processed = 1 ∧
    (processFileStats initStats (JobOutcome.success 0 1)).1.total_processing_time = 1 := by
  norm_num [processFileStats, statsUpdate, initStats]

/-- Closed form of folding the statistics update over jobs with positive audio
durations, from an arbitrary starting state with non-negative accumulated audio. -/
theorem runSuccessJobs_closed (jobs : List (ℚ × ℚ)) :
    ∀ s : ProcessingStats, (∀ q ∈ jobs, 0 < q.1) → 0 ≤ s.total_audio_duration →
      (runSuccessJobs s jobs).jobs_processed = s.jobs_processed + jobs.length ∧
      (runSuccessJobs s jobs).total_audio_duration =
        s.total_audio_duration + (jobs.map Prod.fst).sum ∧
      (runSuccessJobs s jobs).total_processing_time =
        s.total_processing_time + (jobs.map Prod.snd).sum ∧
      (jobs = [] → (runSuccessJobs s jobs).average_rtf = s.average_rtf) ∧
      (jobs ≠ [] → (runSuccessJobs s jobs).average_rtf =
        (s.total_processing_time + (jobs.map Prod.snd).sum) /
        (s.total_audio_duration + (jobs.map Prod.fst).sum)) := by
  induction jobs with
  | nil =>
      intro s _ _
      simp [runSuccessJobs]
  | cons q rest ih =>
      intro s hpos hs
      obtain ⟨d, t⟩ := q
      have hd : 0 < d := hpos (d, t) (List.mem_cons_self _ _)
      have htot : ¬ (s.total_audio_duration + d = 0) := by
        have : 0 < s.total_audio_duration + d := by linarith
        exact ne_of_gt this
      have hstep : (statsUpdate s d t).1 =
          { jobs_processed := s.jobs_processed + 1
            total_audio_duration := s.total_audio_duration + d
            total_processing_time := s.total_processing_time + t
            average_rtf := (s.total_processing_time + t) / (s.total_audio_duration + d) } := by
        simp [statsUpdate, htot]
      have hrun : runSuccessJobs s ((d, t) :: rest) = runSuccessJobs (statsUpdate s d t).1 rest :=
        rfl
      rw [hrun, hstep]
      have hpos' : ∀ q ∈ rest, 0 < q.1 := fun q hq => hpos q (List.mem_cons_of_mem _ hq)
      have hs' : (0:ℚ) ≤ s.total_audio_duration + d := by linarith
      obtain ⟨i1, i2, i3, i4, i5⟩ := ih
        { jobs_processed := s.jobs_processed + 1
          total_audio_duration := s.total_audio_duration + d
          total_processing_time := s.total_processing_time + t
          average_rtf := (s.total_processing_time + t) / (s.total_audio_duration + d) }
        hpos' hs'
      refine ⟨?_, ?_, ?_, ?_, ?_⟩
      · rw [i1]
        simp only [List.length_cons]
        omega
      · rw [i2]
        simp only [List.map_cons, List.sum_cons]
        ring
      · rw [i3]
        simp only [List.map_cons, List.sum_cons]
        ring
      · intro h
        exact absurd h (List.cons_ne_nil _ _)
      · intro _
        cases rest with
        | nil =>
            rw [i4 rfl]
            simp
        | cons r rest' =>
            rw [i5 (List.cons_ne_nil _ _)]
            simp only [List.map_cons, List.sum_cons]
            ring_nf

/-- C2 amended: starting from a fresh processor, after `N` jobs that reach the
success path, each with positive audio duration `d_i` and processing time `t_i`,
the statistics hold `jobs_processed = N`, `total_audio_duration = Σ d_i`,
`total_processing_time = Σ t_i` and (for `N > 0`)
`average_rtf = Σ t_i / Σ d_i`; a call that raises before the statistics block
leaves the dictionary unchanged.  (A job reaching the statistics block with zero
accumulated audio duration instead raises there, after incrementing the first
three counters — see the counterexample.) -/
theorem C2_statistics_amended (jobs : List (ℚ × ℚ)) (hpos : ∀ q ∈ jobs, 0 < q.1) :
    (runSuccessJobs initStats jobs).jobs_processed = jobs.length ∧
    (runSuccessJobs initStats jobs).total_audio_duration = (jobs.map Prod.fst).sum ∧
    (runSuccessJobs initStats jobs).total_processing_time = (jobs.map Prod.snd).sum ∧
    (jobs ≠ [] → (runSuccessJobs initStats jobs).average_rtf =
      (jobs.map Prod.snd).sum / (jobs.map Prod.fst).sum) ∧
    (∀ s : ProcessingStats, processFileStats s JobOutcome.failure = (s, false)) := by
  obtain ⟨i1, i2, i3, _, i5⟩ := runSuccessJobs_closed jobs initStats hpos (le_refl 0)
  refine ⟨?_, ?_, ?_, ?_, fun s => rfl⟩
  · rw [i1]
    simp [initStats]
  · rw [i2]
    simp [initStats]
  · rw [i3]
    simp [initStats]
  · intro h
    rw [i5 h]
    simp [initStats]

/-- Witness for C2 amended: two successful jobs, `(1s, 2s)` and `(3s, 4s)`. -/
theorem C2_statistics_amended_witness :
    (runSuccessJobs initStats [(1, 2), (3, 4)]).jobs_processed = ([(1, 2), (3, 4)] : List (ℚ × ℚ)).length ∧
    (runSuccessJobs initStats [(1, 2), (3, 4)]).total_audio_duration =
      (([(1, 2), (3, 4)] : List (ℚ × ℚ)).map Prod.fst).sum ∧
    (runSuccessJobs initStats [(1, 2), (3, 4)]).total_processing_time =
      (([(1, 2), (3, 4)] : List (ℚ × ℚ)).map Prod.snd).sum ∧
    (([(1, 2), (3, 4)] : List (ℚ × ℚ)) ≠ [] → (runSuccessJobs initStats [(1, 2), (3, 4)]).average_rtf =
      (([(1, 2), (3, 4)] : List (ℚ × ℚ)).map Prod.snd).sum /
      (([(1, 2), (3, 4)] : List (ℚ × ℚ)).map Prod.fst).sum) ∧
    (∀ s : ProcessingStats, processFileStats s JobOutcome.failure = (s, false)) :=
  C2_statistics_amended [(1, 2), (3, 4)] (by norm_num)

/-- Counterexample to C7 as stated: a successful job with audio duration `0` on a
fresh processor makes the accumulated `total_audio_duration` zero; the
recomputation is not skipped — the division raises (completion flag `false`), so
the update does not succeed. -/
theorem C7_counterexample :
    (statsUpdate initStats 0 2).2 = false ∧
    (statsUpdate initStats 0 2).1.average_rtf = 0 ∧
    (statsUpdate initStats 0 2).1.jobs_processed = 1 := by
  norm_num [statsUpdate, initStats]

/-- C7 amended: the statistics update divides unconditionally.  When the
accumulated `total_audio_duration` is zero the division raises
`ZeroDivisionError` — the increments stand, `average_rtf` is left unchanged, and
the job fails rather than succeeding; when it is non-zero the update completes
with `average_rtf = total_processing_time / total_audio_duration` (and the later
per-job log division requires this job's own duration to be non-zero too). -/
theorem C7_rtf_guard_amended (s : ProcessingStats) (d t : ℚ) :
    (s.total_audio_duration + d = 0 →
      statsUpdate s d t =
        ({ s with
            jobs_processed := s.jobs_processed + 1
            total_audio_duration := s.total_audio_duration + d
            total_processing_time := s.total_processing_time + t }, false)) ∧
    (s.total_audio_duration + d ≠ 0 →
      (statsUpdate s d t).1.average_rtf =
        (s.total_processing_time + t) / (s.total_audio_duration + d) ∧
      (statsUpdate s d t).1.jobs_processed = s.jobs_processed + 1 ∧
      (statsUpdate s d t).2 = (d != 0)) := by
  constructor
  · intro h
    simp [statsUpdate, h]
  · intro h
    simp [statsUpdate, h]

/-- Witness for C7 amended at a job of duration `1` and processing time `2` on a
fresh processor. -/
theorem C7_rtf_guard_amended_witness :
    (statsUpdate initStats 1 2).1.average_rtf =
      (initStats.total_processing_time + 2) / (initStats.total_audio_duration + 1) ∧
    (statsUpdate initStats 1 2).1.jobs_processed = initStats.jobs_processed + 1 ∧
    (statsUpdate initStats 1 2).2 = ((1:ℚ) != 0) :=
  (C7_rtf_guard_amended initStats 1 2).2 (by norm_num [initStats])

/-- Counterexample to C4 as stated: on a fresh processor, a call on an existing
file with an unsupported extension does fail with the unsupported-format error and
no decode is attempted — but only after both model loads have run, so the model
handles are non-null during (and after) the call. -/
theorem C4_counterexample :
    (processFile initModels defaultConfig fileBadExt envAllOk).outcome =
      Except.error (wrapErr { ety := "ValueError", msg := "Unsupported audio format: .xyz" }) ∧
    (processFile initModels defaultConfig fileBadExt envAllOk).models.whisper_model = some () ∧
    (processFile initModels defaultConfig fileBadExt envAllOk).models.whisperx_model = some () ∧
    (processFile initModels defaultConfig fileBadExt envAllOk).trace =
      [Event.loadWhisper, Event.loadWhisperX] := by
  refine ⟨?_, rfl, rfl, rfl⟩
  rfl

/-- C4 amended: a call on an existing file whose lowercased extension is not in the
configured supported-format set fails with the unsupported-format error, before
any decode and before any inference stage — but after the model-loading steps, so
the Whisper model handle is non-null when the error is raised. -/
theorem C4_reject_order_amended (st : ModelState) (cfg : STTConfig) (f : AudioFile)
    (env : PipelineEnv) (hw : env.load_whisper = StageOutcome.ok)
    (hx : env.load_whisperx = StageOutcome.ok) (hex : f.exists_on_disk = true)
    (hfmt : lowerString f.suffix ∉ cfg.supported_formats) :
    (processFile st cfg f env).outcome =
      Except.error (wrapErr { ety := "ValueError", msg := "Unsupported audio format: " ++ f.suffix }) ∧
    Event.decodeAudio ∉ (processFile st cfg f env).trace ∧
    Event.transcribe ∉ (processFile st cfg f env).trace ∧
    (processFile st cfg f env).models.whisper_model = some () := by
  obtain ⟨wm, xm, am, dm⟩ := st
  rcases wm with _ | ⟨⟩ <;> rcases xm with _ | ⟨⟩ <;>
    simp [processFile, loadWhisperModel, loadWhisperXModels, preprocessAudio,
          hw, hx, hex, hfmt]

/-- Witness for C4 amended at the concrete unsupported `.xyz` file on a fresh
processor. -/
theorem C4_reject_order_amended_witness :
    (processFile initModels defaultConfig fileBadExt envAllOk).outcome =
      Except.error
        (wrapErr { ety := "ValueError", msg := "Unsupported audio format: " ++ fileBadExt.suffix }) ∧
    Event.decodeAudio ∉ (processFile initModels defaultConfig fileBadExt envAllOk).trace ∧
    Event.transcribe ∉ (processFile initModels defaultConfig fileBadExt envAllOk).trace ∧
    (processFile initModels defaultConfig fileBadExt envAllOk).models.whisper_model = some () :=
  C4_reject_order_amended initModels defaultConfig fileBadExt envAllOk rfl rfl rfl (by decide)

/-- Counterexample to C6 as stated: when the transcription stage raises
`ValueError("boom")` on a good file, the surfaced error is
`RuntimeError("STT processing failed: boom")` with the original exception as its
cause — its entire content (wrapper type and message, cause type and message)
contains the original type and message but neither the failing stage's name nor
the source file path. -/
theorem C6_counterexample :
    (processFile initModels defaultConfig fileGood envTranscribeFails).outcome =
      Except.error (wrapErr errBoom) ∧
    strContains (surfacedContent (wrapErr errBoom)) errBoom.ety = true ∧
    strContains (surfacedContent (wrapErr errBoom)) errBoom.msg = true ∧
    strContains (surfacedContent (wrapErr errBoom)) "transcription" = false ∧
    strContains (surfacedContent (wrapErr errBoom)) fileGood.path = false := by
  refine ⟨rfl, ?_, ?_, ?_, ?_⟩ <;> decide

/-- C6 amended: when any inference stage (transcription, alignment, diarization)
raises, the caller receives a single `RuntimeError` whose message is
`"STT processing failed: "` followed by the original error's message, with the
original error attached as its cause (preserving its type and message); the file
path and the failing stage's name are only logged, not part of the surfaced
error. -/
theorem C6_wrapped_error_amended (st : ModelState) (cfg : STTConfig) (f : AudioFile)
    (env : PipelineEnv) (e : PyErr) (hw : env.load_whisper = StageOutcome.ok)
    (hx : env.load_whisperx = StageOutcome.ok)
    (hpre : preprocessAudio cfg f env = ([Event.decodeAudio], none)) :
    (env.transcribe = StageOutcome.fail e →
      (processFile st cfg f env).outcome = Except.error
        { ety := "RuntimeError", msg := "STT processing failed: " ++ e.msg, cause := e }) ∧
    (env.transcribe = StageOutcome.ok → env.align = StageOutcome.fail e →
      (processFile st cfg f env).outcome = Except.error
        { ety := "RuntimeError", msg := "STT processing failed: " ++ e.msg, cause := e }) ∧
    (env.transcribe = StageOutcome.ok → env.align = StageOutcome.ok →
      env.diarize = StageOutcome.fail e →
      (processFile st cfg f env).outcome = Except.error
        { ety := "RuntimeError", msg := "STT processing failed: " ++ e.msg, cause := e }) := by
  obtain ⟨wm, xm, am, dm⟩ := st
  refine ⟨fun h1 => ?_, fun h1 h2 => ?_, fun h1 h2 h3 => ?_⟩ <;>
    rcases wm with _ | ⟨⟩ <;> rcases xm with _ | ⟨⟩ <;>
      simp_all [processFile, loadWhisperModel, loadWhisperXModels, runStages, wrapErr]

/-- Witness for C6 amended at the concrete failing transcription stage. -/
theorem C6_wrapped_error_amended_witness :
    (processFile initModels defaultConfig fileGood envTranscribeFails).outcome = Except.error
      { ety := "RuntimeError", msg := "STT processing failed: " ++ errBoom.msg,
        cause := errBoom } :=
  (C6_wrapped_error_amended initModels defaultConfig fileGood envTranscribeFails errBoom
    rfl rfl rfl).1 rfl

/-- Counterexample to C8 as stated: for the input where `SPEAKER_00` appears
before `SPEAKER_01`, the output listing `SPEAKER_01` first is a possible result of
`_parse_results` (the speakers list comes from iterating a Python `set`, whose
order the source does not fix), and it is not in order of first appearance. -/
theorem C8_counterexample :
    parseResultsRel rsEx 2 1 "large-v3" "pt" "job-1" 0 outSwapped ∧
    outSwapped.speakers ≠ dedupFirst (rsEx.map rawSpeakerId) := by
  constructor
  · exact ⟨["SPEAKER_01", "SPEAKER_00"], by decide, rfl⟩
  · have h : outSwapped.speakers = ["SPEAKER_01", "SPEAKER_00"] :=
      create_speakers_eq (rsEx.map parseSegment) (parseFullText rsEx)
        ["SPEAKER_01", "SPEAKER_00"] 2 1 ("whisper-" ++ "large-v3" ++ "+whisperx")
        "pt" "job-1" 0
    rw [h]
    decide

/-- C8 amended: every possible `_parse_results` output has a speakers list that is
a permutation of the distinct speaker identifiers encountered across the input
segments — it contains exactly those identifiers, without duplicates — but in an
order the source leaves unspecified (Python set iteration), not necessarily first
appearance. -/
theorem C8_speakers_amended (rs : List RawSegment) (a p : ℚ) (wm lang jid : String)
    (ca : ℚ) (out : TranscriptionResult)
    (h : parseResultsRel rs a p wm lang jid ca out) :
    out.speakers.Perm (dedupFirst (rs.map rawSpeakerId)) ∧
    out.speakers.Nodup ∧
    ∀ x : String, x ∈ out.speakers ↔ x ∈ rs.map rawSpeakerId := by
  obtain ⟨sp, hperm, hout⟩ := h
  have hs : out.speakers = sp := by
    rw [hout]
    exact create_speakers_eq (rs.map parseSegment) (parseFullText rs) sp a p
      ("whisper-" ++ wm ++ "+whisperx") lang jid ca
  rw [hs]
  refine ⟨hperm, hperm.symm.nodup (nodup_dedupFirst _), fun x => ?_⟩
  rw [hperm.mem_iff, mem_dedupFirst]

/-- Witness for C8 amended at the concrete two-speaker input and the swapped
output. -/
theorem C8_speakers_amended_witness :
    outSwapped.speakers.Perm (dedupFirst (rsEx.map rawSpeakerId)) :=
  (C8_speakers_amended rsEx 2 1 "large-v3" "pt" "job-1" 0 outSwapped
    ⟨["SPEAKER_01", "SPEAKER_00"], by decide, rfl⟩).1

end STT
